import Mathlib

/-!
# Verification of the geo-job-platform backend job controller

Shallow embedding of the job controller (`controllers/jobController.js`,
final revision) and the `Application` schema of this repository, together
with theorems settling the frozen claims about job listing filters, job
creation/update, pagination and duplicate applications.

Modelling conventions:
* JavaScript request values are `JVal` (number or string); a possibly
  absent field is `Option JVal` or `Option String` (`none` = `undefined`).
* Numbers are modelled as `Int` (every claim uses integer-valued inputs;
  `NaN` is the extra constructor `JVal.nan`).
* MongoDB regular-expression matches produced by `new RegExp(s, 'i')`
  are modelled as case-insensitive substring tests (no claim uses regex
  metacharacters).
* Timestamps are integers (milliseconds), mirroring `Date.getTime()`.
-/

namespace GeoJob

/-- A JavaScript value as it occurs in a request body or a stored
document field: a number, a string, or `NaN`. -/
inductive JVal where
  | num (n : Int)
  | str (s : String)
  | nan
deriving DecidableEq, Repr

/-- JavaScript truthiness of a `JVal`: `0`, `""` and `NaN` are falsy. -/
def JVal.truthy : JVal → Bool
  | .num n => n != 0
  | .str s => s != ""
  | .nan => false

/-- Truthiness of a possibly-undefined value (`undefined` is falsy). -/
def otruthy : Option JVal → Bool
  | none => false
  | some v => v.truthy

/-- Truthiness of a possibly-undefined string (`undefined` and `""` falsy). -/
def struthy : Option String → Bool
  | none => false
  | some s => s != ""

/-- ASCII lower-casing of one character (the stored enum/city/skill
strings are ASCII). -/
def lowerChar (c : Char) : Char :=
  if 'A' ≤ c && c ≤ 'Z' then Char.ofNat (c.toNat + 32) else c

/-- Lower-casing of a string, character by character. -/
def lowerStr (s : String) : String := ⟨s.data.map lowerChar⟩

/-- Whitespace test for trimming. -/
def isSpaceChar (c : Char) : Bool := c = ' ' || c = '\t' || c = '\n' || c = '\r'

/-- Trim leading and trailing whitespace from a character list. -/
def trimChars (cs : List Char) : List Char :=
  ((cs.dropWhile isSpaceChar).reverse.dropWhile isSpaceChar).reverse

/-- Split a character list at commas (`s.split(',')`). -/
def splitComma : List Char → List (List Char)
  | [] => [[]]
  | c :: rest =>
    let r := splitComma rest
    if c = ',' then [] :: r
    else
      match r with
      | h :: t => (c :: h) :: t
      | [] => [[c]]

/-- Leading decimal digits of a character list. -/
def takeDigits (cs : List Char) : List Char := cs.takeWhile (fun c => c.isDigit)

/-- Value of a digit list, most significant first. -/
def digitsToNat (ds : List Char) : Nat :=
  ds.foldl (fun a c => a * 10 + (c.toNat - 48)) 0

/-- Model of JavaScript `parseInt` / `parseFloat` on the inputs this code
receives: skip leading whitespace, read an optional sign and then leading
decimal digits, ignore any trailing text; `none` models `NaN` (no digits).
Fractional parts are not modelled: every claim uses integer-valued
numeric input. -/
def parseJsNumber (s : String) : Option Int :=
  let cs := trimChars s.data
  let signed : Bool × List Char :=
    match cs with
    | '-' :: r => (true, r)
    | '+' :: r => (false, r)
    | r => (false, r)
  let ds := takeDigits signed.2
  if ds.isEmpty then none
  else some (if signed.1 then -(digitsToNat ds : Int) else (digitsToNat ds : Int))

/-- `parseFloat` applied to a `JVal` (numbers pass through, strings are
parsed, `NaN` stays `NaN`). -/
def parseFloatJV : JVal → JVal
  | .num n => .num n
  | .str s =>
    match parseJsNumber s with
    | some n => .num n
    | none => .nan
  | .nan => .nan

/-- `infixAt needle hay` is true when `needle` occurs contiguously in `hay`. -/
def infixAt (needle : List Char) : List Char → Bool
  | [] => needle.isEmpty
  | c :: cs => needle.isPrefixOf (c :: cs) || infixAt needle cs

/-- Case-insensitive substring test: the model of testing a stored string
against `new RegExp(needle, 'i')` (for needles without metacharacters). -/
def ciContains (hay needle : String) : Bool :=
  infixAt (lowerStr needle).data (lowerStr hay).data

/-- Comma-split a string and trim each piece (`s.split(',').map(t => t.trim())`). -/
def splitTrim (s : String) : List String :=
  (splitComma s.data).map (fun cs => String.mk (trimChars cs))

/-- MongoDB `$gte` between a stored field value and a numeric constant.
Type bracketing: a stored string (or `NaN`) never satisfies a numeric
comparison. -/
def JVal.mongoGe (v : JVal) (m : Int) : Bool :=
  match v with
  | .num n => m ≤ n
  | _ => false

/-- MongoDB `$lte` between a stored field value and a numeric constant. -/
def JVal.mongoLe (v : JVal) (m : Int) : Bool :=
  match v with
  | .num n => n ≤ m
  | _ => false

/-- A stored GeoJSON point (`location` subdocument of a Job; the constant
`type: "Point"` discriminator is omitted). -/
structure Location where
  lon : Int
  lat : Int
  address_text : String
deriving DecidableEq, Repr

/-- A persisted Job document (`models/Job.js`).  The pay-rate fields are
`JVal` because `updateJob` can assign a raw request value to them; jobs
created through `createJob` always hold numbers there. -/
structure Job where
  employer_id : String
  title : String
  description : String
  job_type : String
  city : String
  location : Location
  pay_rate_min : JVal
  pay_rate_max : JVal
  pay_type : String
  application_deadline : Option String
  required_skills : List String
  image_url : String
  status : String
  posted_at : Int
deriving DecidableEq, Repr

/-! ## `getAllJobs`: query compilation and the two execution paths -/

/-- The query-string parameters of `GET /api/jobs` (each is a string when
present, `undefined` otherwise). -/
structure QueryParams where
  employerId : Option String := none
  status : Option String := none
  skills : Option String := none
  jobType : Option String := none
  city : Option String := none
  datePosted : Option String := none
  minPay : Option String := none
  maxPay : Option String := none
  long : Option String := none
  lat : Option String := none
  maxDistance : Option String := none
  page : Option String := none
  limit : Option String := none
deriving Repr

/-- Milliseconds of the recency window selected by `datePosted`;
unrecognized values produce no cutoff. -/
def dateWindowMs : String → Option Int
  | "24h" => some (24 * 60 * 60 * 1000)
  | "3d" => some (3 * 24 * 60 * 60 * 1000)
  | "7d" => some (7 * 24 * 60 * 60 * 1000)
  | "30d" => some (30 * 24 * 60 * 60 * 1000)
  | _ => none

/-- The base `query` object (everything except the pay-rate `$and`
conditions) evaluated on one job; `now` is `Date.now()` in ms. -/
def baseQuery (p : QueryParams) (now : Int) (j : Job) : Bool :=
  (match p.employerId with
   | some e => if e != "" then j.employer_id == e else true
   | none => true) &&
  (match p.status with
   | some s => if s != "" then j.status == s else true
   | none => true) &&
  (match p.skills with
   | some s => if s != "" then
       j.required_skills.any (fun sk => (splitTrim s).any (fun t => ciContains sk t))
     else true
   | none => true) &&
  (match p.jobType with
   | some s => if s != "" then (splitTrim s).any (fun t => ciContains j.job_type t) else true
   | none => true) &&
  (match p.city with
   | some c => if c != "" then ciContains j.city c else true
   | none => true) &&
  (match p.datePosted with
   | some d => if d != "" then
       match dateWindowMs d with
       | some w => now - w ≤ j.posted_at
       | none => true
     else true
   | none => true)

/-- The numeric value of a pay-filter query parameter, combining the two
source guards `if (req.query.minPay)` (truthiness) and `if (!isNaN(...))`
(parse success): `some m` exactly when the parameter is present, non-empty
and parses to a number. -/
def qnum (o : Option String) : Option Int :=
  match o with
  | some s => if s != "" then parseJsNumber s else none
  | none => none

/-- The `payRateConditions` list: a `pay_rate_max ≥ minPay` clause when a
parseable `minPay` is supplied and a `pay_rate_min ≤ maxPay` clause when a
parseable `maxPay` is supplied. -/
def payRateConditions (p : QueryParams) : List (Job → Bool) :=
  (match qnum p.minPay with
   | some m => [fun j => j.pay_rate_max.mongoGe m]
   | none => []) ++
  (match qnum p.maxPay with
   | some m => [fun j => j.pay_rate_min.mongoLe m]
   | none => [])

/-- The complete compiled filter: the base query `$and`-combined with the
pay-rate conditions (the three `$and`-merging branches of the source all
denote this conjunction). -/
def matchesQuery (p : QueryParams) (now : Int) (j : Job) : Bool :=
  baseQuery p now j && (payRateConditions p).all (fun c => c j)

/-- Effective page number: `parseInt(req.query.page) || 1`. -/
def effectivePage (page : Option String) : Int :=
  match page with
  | none => 1
  | some s =>
    match parseJsNumber s with
    | none => 1
    | some n => if n = 0 then 1 else n

/-- Effective page size: `parseInt(req.query.limit) || 10`. -/
def effectiveLimit (limit : Option String) : Int :=
  match limit with
  | none => 10
  | some s =>
    match parseJsNumber s with
    | none => 10
    | some n => if n = 0 then 10 else n

/-- `skip = (page - 1) * limit`. -/
def skipOf (p : QueryParams) : Int :=
  (effectivePage p.page - 1) * effectiveLimit p.limit

/-- Insertion into a list kept sorted by descending `posted_at`. -/
def insertByPostedDesc (j : Job) : List Job → List Job
  | [] => [j]
  | k :: ks => if k.posted_at ≤ j.posted_at then j :: k :: ks
               else k :: insertByPostedDesc j ks

/-- `sort({ posted_at: -1 })` of the plain query path. -/
def sortByPostedDesc : List Job → List Job
  | [] => []
  | j :: js => insertByPostedDesc j (sortByPostedDesc js)

/-- The match set of the plain (non-geospatial) path: the documents
selected by `Job.find(query)` before sorting and pagination. -/
def nonGeoMatchSet (p : QueryParams) (now : Int) (corpus : List Job) : List Job :=
  corpus.filter (matchesQuery p now)

/-- The plain query path: `countDocuments(query)` for the total, and the
sorted match set paginated by `skip`/`limit` for the page items (a
negative `skip` would raise a store error; that error path is outside the
model, and no claim inspects page items at negative parameters). -/
def getAllJobsNonGeo (p : QueryParams) (now : Int) (corpus : List Job) :
    List Job × Nat :=
  let total := (nonGeoMatchSet p now corpus).length
  let items := (((sortByPostedDesc (nonGeoMatchSet p now corpus)).drop
      (skipOf p).toNat).take (effectiveLimit p.limit).toNat)
  (items, total)

/-- Radius test of `$geoNear`.  `dist j` is the spherical distance in
meters from the query point to `j.location` (kept abstract: no claim
depends on the numeric geometry); `maxDist = none` models the idealized
unbounded radius of the parity property. -/
def withinDist (dist : Job → Nat) (maxDist : Option Nat) (j : Job) : Bool :=
  match maxDist with
  | none => true
  | some r => dist j ≤ r

/-- The documents surviving the aggregation pipeline of the geospatial
path before `$facet`: `$geoNear` applies `query` plus the radius bound,
and `$lookup` + `$unwind` on `employer_id` keeps only documents whose
employer id occurs in the `users` collection (an `$unwind` of the empty
lookup result drops the document). -/
def geoMatchSet (p : QueryParams) (now : Int) (dist : Job → Nat)
    (maxDist : Option Nat) (users : List String) (corpus : List Job) : List Job :=
  ((corpus.filter (fun j => matchesQuery p now j && withinDist dist maxDist j)).filter
    (fun j => users.contains j.employer_id))

/-- Insertion into a list kept sorted by ascending distance, ties by
descending `posted_at` (`$sort { distance: 1, posted_at: -1 }`). -/
def insertByDist (dist : Job → Nat) (j : Job) : List Job → List Job
  | [] => [j]
  | k :: ks =>
    if dist j < dist k || (dist j == dist k && k.posted_at ≤ j.posted_at) then
      j :: k :: ks
    else k :: insertByDist dist j ks

/-- The distance sort of the geospatial pipeline. -/
def sortByDist (dist : Job → Nat) : List Job → List Job
  | [] => []
  | j :: js => insertByDist dist j (sortByDist dist js)

/-- The geospatial aggregation path: `$facet` counts the full pipeline
output for `total` and paginates it with `$skip`/`$limit` for the items. -/
def getAllJobsGeo (p : QueryParams) (now : Int) (dist : Job → Nat)
    (maxDist : Option Nat) (users : List String) (corpus : List Job) :
    List Job × Nat :=
  let matched := geoMatchSet p now dist maxDist users corpus
  let total := matched.length
  let items := ((sortByDist dist matched).drop (skipOf p).toNat).take
      (effectiveLimit p.limit).toNat
  (items, total)

/-! ## Geocoding adapter and `createJob` -/

/-- One result object returned by `geocoder.geocode`. -/
structure GeoResult where
  longitude : Int
  latitude : Int
  formattedAddress : Option String
  resCity : Option String
  country : Option String
deriving DecidableEq, Repr

/-- Outcome of a call to the geocoding adapter: a thrown provider error,
or an (possibly empty) result list. -/
inductive GeoOutcome where
  | err
  | ok (results : List GeoResult)
deriving DecidableEq, Repr

/-- Default job image path. -/
def DEFAULT_JOB_IMAGE_PATH : String := "/uploads/geo_job_default.jpg"

/-- The body of `POST /api/jobs`.  String-typed fields arrive as strings;
the pay-rate fields are kept as raw `JVal` so that numeric `0` (falsy) can
be distinguished from the string `"0"` (truthy). -/
structure CreateReq where
  title : Option String := none
  description : Option String := none
  job_type : Option String := none
  city : Option String := none
  pay_rate_min : Option JVal := none
  pay_rate_max : Option JVal := none
  pay_type : Option String := none
  application_deadline : Option String := none
  required_skills : Option String := none
deriving Repr

/-- The `createJob` required-field guard:
`!title || !description || !job_type || !city || !pay_rate_min || !pay_rate_max || !pay_type`. -/
def missingRequired (r : CreateReq) : Bool :=
  !struthy r.title || !struthy r.description || !struthy r.job_type ||
  !struthy r.city || !otruthy r.pay_rate_min || !otruthy r.pay_rate_max ||
  !struthy r.pay_type

/-- Result of `createJob`: a 400 validation rejection (no document is
persisted) or a 201 with the created job. -/
inductive CreateResult where
  | badRequest (msg : String)
  | created (job : Job)
deriving Repr

/-- HTTP status of a `createJob` outcome. -/
def CreateResult.httpStatus : CreateResult → Nat
  | .badRequest _ => 400
  | .created _ => 201

/-- Coordinates and formatted address chosen from a geocoding outcome for
`city`: on success the first result's point and its formatted address
(falling back to `"city, country"`, then to the input text); on a thrown
error or an empty result list, the sentinel `(0, 0)` and the input text. -/
def resolveCreateLocation (city : String) : GeoOutcome → Location
  | .ok (g :: _) =>
    { lon := g.longitude, lat := g.latitude,
      address_text :=
        match g.formattedAddress with
        | some fa => fa
        | none =>
          match g.resCity, g.country with
          | some c, some k => c ++ ", " ++ k
          | _, _ => city }
  | .ok [] => { lon := 0, lat := 0, address_text := city }
  | .err => { lon := 0, lat := 0, address_text := city }

/-- `createJob` (final revision): validate required fields, geocode the
city with the degradation default, persist the job, answer 201.  `geo`
is the geocoding adapter, `employerId` is `req.user._id`, `file` the
optional uploaded image filename, `now` the creation timestamp. -/
def createJob (geo : String → GeoOutcome) (employerId : String)
    (file : Option String) (now : Int) (r : CreateReq) : CreateResult :=
  if missingRequired r then
    .badRequest "Please fill in all required job fields (title, description, job type, city, pay rates, pay type)."
  else
    let city := r.city.getD ""
    let image_url :=
      match file with
      | some f => "/uploads/job_images/" ++ f
      | none => DEFAULT_JOB_IMAGE_PATH
    .created
      { employer_id := employerId
        title := r.title.getD ""
        description := r.description.getD ""
        job_type := r.job_type.getD ""
        city := city
        location := resolveCreateLocation city (geo city)
        pay_rate_min := parseFloatJV ((r.pay_rate_min).getD (.num 0))
        pay_rate_max := parseFloatJV ((r.pay_rate_max).getD (.num 0))
        pay_type := r.pay_type.getD ""
        application_deadline :=
          match r.application_deadline with
          | some d => if d != "" then some d else none
          | none => none
        required_skills :=
          match r.required_skills with
          | some s => if s != "" then splitTrim s else []
          | none => []
        image_url := image_url
        status := "Active"
        posted_at := now }

/-- The Job schema's validator for `pay_rate_min`
(`min: [0, 'Minimum pay rate cannot be negative']`). -/
def jobSchemaPayRateMinOk (n : Int) : Bool := 0 ≤ n

/-- The Job schema's validator for `pay_rate_max` (`min: 0`). -/
def jobSchemaPayRateMaxOk (n : Int) : Bool := 0 ≤ n

/-! ## `updateJob` -/

/-- The body of `PUT /api/jobs/:id`: every field optional; the pay-rate
fields keep their raw request value. -/
structure UpdatePatch where
  title : Option String := none
  description : Option String := none
  job_type : Option String := none
  city : Option String := none
  pay_rate_min : Option JVal := none
  pay_rate_max : Option JVal := none
  pay_type : Option String := none
  application_deadline : Option String := none
  required_skills : Option String := none
  status : Option String := none
deriving Repr

/-- JavaScript `patch || old` for a string field: a defined, non-empty
patch value wins, anything falsy leaves the stored value. -/
def mergeOrStr (patch : Option String) (old : String) : String :=
  match patch with
  | some s => if s != "" then s else old
  | none => old

/-- `patch || old` where the stored field may be null (`application_deadline`). -/
def mergeOrOpt (patch : Option String) (old : Option String) : Option String :=
  match patch with
  | some s => if s != "" then some s else old
  | none => old

/-- `patch !== undefined ? patch : old` — the merge used for the two
pay-rate fields: any defined value (the empty string included) replaces
the stored one. -/
def mergeDefined (patch : Option JVal) (old : JVal) : JVal :=
  match patch with
  | some v => v
  | none => old

/-- The location chosen by `updateJob`: re-geocoded only when the patch
city is truthy and differs from the stored city; on geocoding success the
new point and address (formatted address, else `"city, country"`, else
the stored address text or stored city); on failure or no results the
stored location is kept. -/
def resolveUpdateLocation (geo : String → GeoOutcome) (patchCity : Option String)
    (job : Job) : Location :=
  match patchCity with
  | some c =>
    if c != "" && c != job.city then
      match geo c with
      | .ok (g :: _) =>
        { lon := g.longitude, lat := g.latitude,
          address_text :=
            match g.formattedAddress with
            | some fa => fa
            | none =>
              match g.resCity, g.country with
              | some rc, some k => rc ++ ", " ++ k
              | _, _ =>
                match job.location.address_text with
                | "" => job.city
                | a => a }
      | .ok [] => job.location
      | .err => job.location
    else job.location
  | none => job.location

/-- Whether `updateJob` invokes the geocoding adapter
(`if (city && city !== job.city)`). -/
def updateInvokesGeocoder (patchCity : Option String) (job : Job) : Bool :=
  match patchCity with
  | some c => c != "" && c != job.city
  | none => false

/-- The document state produced by the field-merge of `updateJob`
(lines assigning `job.title = title || job.title` … `job.status`), as
passed to `job.save()`; save-time schema casting is outside the model.
`file` is the optional replacement image. -/
def updateJob (geo : String → GeoOutcome) (file : Option String)
    (p : UpdatePatch) (job : Job) : Job :=
  { job with
    title := mergeOrStr p.title job.title
    description := mergeOrStr p.description job.description
    job_type := mergeOrStr p.job_type job.job_type
    city := mergeOrStr p.city job.city
    location := resolveUpdateLocation geo p.city job
    pay_rate_min := mergeDefined p.pay_rate_min job.pay_rate_min
    pay_rate_max := mergeDefined p.pay_rate_max job.pay_rate_max
    pay_type := mergeOrStr p.pay_type job.pay_type
    application_deadline := mergeOrOpt p.application_deadline job.application_deadline
    required_skills :=
      match p.required_skills with
      | some s => if s != "" then splitTrim s else job.required_skills
      | none => job.required_skills
    image_url :=
      match file with
      | some f => "/uploads/job_images/" ++ f
      | none => job.image_url
    status := mergeOrStr p.status job.status }

/-! ## `applyForJob` and the duplicate-application guarantee

The `Application` schema declares
`applicationSchema.index({ job_id: 1, applicant_id: 1 }, { unique: true })`:
the store itself refuses a second document with the same pair.  The
controller additionally performs a `findOne` check before the insert. -/

/-- An application key: `(job_id, applicant_id)`. -/
abbrev AppKey := String × String

/-- The application store, as the list of persisted keys. -/
abbrev ApplStore := List AppKey

/-- A store insert under the unique compound index on
`(job_id, applicant_id)`: a duplicate key makes the write fail. -/
def insertUnique (st : ApplStore) (k : AppKey) : Option ApplStore :=
  if k ∈ st then none else some (k :: st)

/-- Outcome of a sequential `applyForJob` call, in the order the guards
run in the controller. -/
inductive ApplyResult where
  | onlyLaborers          -- 403
  | resumeRequired        -- 400
  | jobNotFound           -- 404
  | jobNotActive          -- 400
  | alreadyApplied        -- 400, the friendly duplicate rejection
  | submitted             -- 201
deriving DecidableEq, Repr

/-- HTTP status of an `applyForJob` outcome. -/
def ApplyResult.httpStatus : ApplyResult → Nat
  | .onlyLaborers => 403
  | .resumeRequired => 400
  | .jobNotFound => 404
  | .jobNotActive => 400
  | .alreadyApplied => 400
  | .submitted => 201

/-- Sequential `applyForJob`: role guard, resume guard, job lookup, Active
guard, duplicate `findOne` check, then the insert.  Returns the outcome
and the store after the call. -/
def applyForJob (userType : String) (hasResume : Bool) (job : Option Job)
    (st : ApplStore) (jobId applicantId : String) : ApplyResult × ApplStore :=
  if userType != "laborer" then (.onlyLaborers, st)
  else if !hasResume then (.resumeRequired, st)
  else
    match job with
    | none => (.jobNotFound, st)
    | some j =>
      if j.status != "Active" then (.jobNotActive, st)
      else if (jobId, applicantId) ∈ st then (.alreadyApplied, st)
      else
        match insertUnique st (jobId, applicantId) with
        | some st' => (.submitted, st')
        | none => (.alreadyApplied, st)

/-- Phase of one in-flight apply request around its two store operations
(the `findOne` duplicate check and the `save`). -/
inductive RPhase where
  | beforeCheck
  | beforeInsert
  | doneOk      -- 201, application persisted
  | doneErr     -- rejected: friendly 400 or store duplicate-key error
deriving DecidableEq, Repr

/-- State of two concurrent apply requests for the same key over the
shared store. -/
structure RaceState where
  store : ApplStore
  a : RPhase
  b : RPhase
deriving DecidableEq, Repr

/-- One store-operation step of a single request: the `findOne` check
rejects when the key is present, otherwise the request proceeds to its
`save`, which the unique index makes fail if the key appeared meanwhile. -/
def stepReq (k : AppKey) (ph : RPhase) (st : ApplStore) : RPhase × ApplStore :=
  match ph with
  | .beforeCheck => if k ∈ st then (.doneErr, st) else (.beforeInsert, st)
  | .beforeInsert =>
    match insertUnique st k with
    | some st' => (.doneOk, st')
    | none => (.doneErr, st)
  | ph => (ph, st)

/-- Interleaving step: `true` advances request A, `false` request B. -/
def raceStep (k : AppKey) (s : RaceState) (mv : Bool) : RaceState :=
  if mv then
    let r := stepReq k s.a s.store
    { store := r.2, a := r.1, b := s.b }
  else
    let r := stepReq k s.b s.store
    { store := r.2, a := s.a, b := r.1 }

/-- Run a schedule of interleaved steps. -/
def raceRun (k : AppKey) (sched : List Bool) (s : RaceState) : RaceState :=
  sched.foldl (raceStep k) s

/-- Both requests start before their duplicate check, over an empty store
(no prior application for the key). -/
def raceInit : RaceState := { store := [], a := .beforeCheck, b := .beforeCheck }

/-- A request is finished. -/
def RPhase.isDone : RPhase → Bool
  | .doneOk => true
  | .doneErr => true
  | _ => false

/-- Invariant of the race: the key is stored exactly when some request
has succeeded, never both succeed, and a rejected request implies the key
is stored. -/
def RaceInv (k : AppKey) (s : RaceState) : Prop :=
  (s.store = if s.a = .doneOk ∨ s.b = .doneOk then [k] else []) ∧
  ¬(s.a = .doneOk ∧ s.b = .doneOk) ∧
  (s.a = .doneErr → s.store = [k]) ∧
  (s.b = .doneErr → s.store = [k])

/-! ## Concrete sample data for instantiations -/

/-- A sample active job: pay range `[10, 50]`, type `Full-time`, located
in Springfield at `(10, 20)`. -/
def sampleJob : Job :=
  { employer_id := "emp1"
    title := "Mason"
    description := "Bricklaying work"
    job_type := "Full-time"
    city := "Springfield"
    location := { lon := 10, lat := 20, address_text := "Springfield" }
    pay_rate_min := .num 10
    pay_rate_max := .num 50
    pay_type := "Hourly"
    application_deadline := none
    required_skills := ["masonry"]
    image_url := DEFAULT_JOB_IMAGE_PATH
    status := "Active"
    posted_at := 0 }

/-- A geocoding adapter that always throws (provider failure). -/
def failingGeocoder : String → GeoOutcome := fun _ => .err

/-- A request with every required field present and a pay range of `[10, 50]`. -/
def sampleCreateReq : CreateReq :=
  { title := some "Mason"
    description := some "Bricklaying work"
    job_type := some "Full-time"
    city := some "Unresolvable City"
    pay_rate_min := some (.num 10)
    pay_rate_max := some (.num 50)
    pay_type := some "Hourly" }

/-! ## Race invariant lemmas -/

lemma raceInv_init (k : AppKey) : RaceInv k raceInit := by
  refine ⟨?_, ?_, ?_, ?_⟩ <;> simp [raceInit, RaceInv]

lemma stepReq_preserves (k : AppKey) (pa pb : RPhase) (st : ApplStore)
    (h : RaceInv k { store := st, a := pa, b := pb }) :
    RaceInv k { store := (stepReq k pa st).2, a := (stepReq k pa st).1, b := pb } := by
  obtain ⟨hst, hnb, hae, hbe⟩ := h
  simp only at hst hnb hae hbe
  cases pa with
  | beforeCheck =>
    by_cases hb : pb = .doneOk
    · subst hb
      simp only [show ((RPhase.beforeCheck = RPhase.doneOk ∨ RPhase.doneOk = RPhase.doneOk)) = True
          by simp, if_true] at hst
      subst hst
      simp [stepReq, RaceInv]
    · have hst' : st = [] := by
        simpa [hb] using hst
      subst hst'
      refine ⟨?_, ?_, ?_, ?_⟩ <;> simp [stepReq, RaceInv, hb]
      intro hbe'
      exact absurd (hbe hbe') (by simp)
  | beforeInsert =>
    by_cases hb : pb = .doneOk
    · subst hb
      simp only [show ((RPhase.beforeInsert = RPhase.doneOk ∨ RPhase.doneOk = RPhase.doneOk)) = True
          by simp, if_true] at hst
      subst hst
      simp [stepReq, insertUnique, RaceInv]
    · have hst' : st = [] := by
        simpa [hb] using hst
      subst hst'
      refine ⟨?_, ?_, ?_, ?_⟩ <;> simp [stepReq, insertUnique, RaceInv, hb]
  | doneOk => exact ⟨hst, hnb, hae, hbe⟩
  | doneErr => exact ⟨hst, hnb, hae, hbe⟩

/-- The invariant is symmetric in the two requests. -/
lemma raceInv_swap (k : AppKey) (st : ApplStore) (pa pb : RPhase)
    (h : RaceInv k { store := st, a := pa, b := pb }) :
    RaceInv k { store := st, a := pb, b := pa } := by
  obtain ⟨hst, hnb, hae, hbe⟩ := h
  refine ⟨?_, ?_, ?_, ?_⟩
  · simpa [or_comm] using hst
  · simpa [and_comm] using hnb
  · exact hbe
  · exact hae

lemma raceStep_preserves (k : AppKey) (mv : Bool) (s : RaceState)
    (h : RaceInv k s) : RaceInv k (raceStep k s mv) := by
  obtain ⟨st, pa, pb⟩ := s
  cases mv with
  | true => exact stepReq_preserves k pa pb st h
  | false =>
    have h' := stepReq_preserves k pb pa st (raceInv_swap k st pa pb h)
    simpa [raceStep] using raceInv_swap k _ _ _ h'

lemma raceRun_preserves (k : AppKey) (sched : List Bool) (s : RaceState)
    (h : RaceInv k s) : RaceInv k (raceRun k sched s) := by
  induction sched generalizing s with
  | nil => simpa [raceRun] using h
  | cons mv rest ih =>
    have : raceRun k (mv :: rest) s = raceRun k rest (raceStep k s mv) := rfl
    rw [this]
    exact ih _ (raceStep_preserves k mv s h)

/-- Once both concurrent apply requests have finished, exactly one key is
stored and exactly one request succeeded. -/
lemma race_final (k : AppKey) (sched : List Bool)
    (hA : (raceRun k sched raceInit).a.isDone = true)
    (hB : (raceRun k sched raceInit).b.isDone = true) :
    (raceRun k sched raceInit).store = [k] ∧
    (((raceRun k sched raceInit).a = .doneOk ∧ (raceRun k sched raceInit).b = .doneErr) ∨
     ((raceRun k sched raceInit).a = .doneErr ∧ (raceRun k sched raceInit).b = .doneOk)) := by
  obtain ⟨hst, hnb, hae, hbe⟩ := raceRun_preserves k sched raceInit (raceInv_init k)
  have hdone : ∀ ph : RPhase, ph.isDone = true → ph = .doneOk ∨ ph = .doneErr := by
    intro ph h
    cases ph <;> simp_all [RPhase.isDone]
  rcases hdone _ hA with ha | ha <;> rcases hdone _ hB with hb | hb
  · exact absurd ⟨ha, hb⟩ hnb
  · exact ⟨by simpa [ha] using hst, Or.inl ⟨ha, hb⟩⟩
  · exact ⟨by simpa [hb] using hst, Or.inr ⟨ha, hb⟩⟩
  · -- both rejected is impossible: a rejection implies the key is stored,
    -- and the key is stored only when some request succeeded
    have h1 : (raceRun k sched raceInit).store = [k] := hae ha
    have h2 : (raceRun k sched raceInit).store = [] := by
      have hna : (raceRun k sched raceInit).a ≠ RPhase.doneOk := by simp [ha]
      have hnb' : (raceRun k sched raceInit).b ≠ RPhase.doneOk := by simp [hb]
      simpa [hna, hnb'] using hst
    rw [h1] at h2
    exact absurd h2 (by simp)

/-! ## Shared query-path lemmas -/

/-- With an unbounded radius, the geospatial pipeline's output is the
plain match set as soon as every matching job's employer exists in the
`users` collection. -/
lemma geoMatchSet_unbounded_eq (p : QueryParams) (now : Int) (dist : Job → Nat)
    (users : List String) (corpus : List Job)
    (h : ∀ j ∈ corpus, j.employer_id ∈ users) :
    geoMatchSet p now dist none users corpus = nonGeoMatchSet p now corpus := by
  unfold geoMatchSet nonGeoMatchSet
  have h1 : (corpus.filter fun j => matchesQuery p now j && withinDist dist none j) =
      corpus.filter (matchesQuery p now) := by
    apply List.filter_congr
    intro j _
    simp [withinDist]
  rw [h1]
  apply List.filter_eq_self.2
  intro j hj
  exact List.elem_eq_true_of_mem (h j (List.mem_filter.1 hj).1)

/-- The pay-rate `$and` clauses hold on a job exactly when each supplied
numeric bound is satisfied in the interval-overlap sense. -/
lemma payRateConditions_iff (p : QueryParams) (j : Job) :
    ((payRateConditions p).all (fun c => c j) = true) ↔
      ((∀ a, qnum p.minPay = some a → j.pay_rate_max.mongoGe a = true) ∧
       (∀ b, qnum p.maxPay = some b → j.pay_rate_min.mongoLe b = true)) := by
  unfold payRateConditions
  cases hm : qnum p.minPay <;> cases hx : qnum p.maxPay <;> simp

/-- Membership in the plain match set, split into base query and pay
conditions. -/
lemma mem_nonGeoMatchSet_iff (p : QueryParams) (now : Int) (corpus : List Job) (j : Job) :
    j ∈ nonGeoMatchSet p now corpus ↔
      j ∈ corpus ∧ baseQuery p now j = true ∧
      ((∀ a, qnum p.minPay = some a → j.pay_rate_max.mongoGe a = true) ∧
       (∀ b, qnum p.maxPay = some b → j.pay_rate_min.mongoLe b = true)) := by
  unfold nonGeoMatchSet matchesQuery
  rw [List.mem_filter, Bool.and_eq_true, payRateConditions_iff]

/-! ## Claims -/

/-- **C1**: in the job listing, a job `j` passing the base filters is
included exactly when every supplied numeric pay bound holds in the
interval-overlap sense — `pay_rate_max ≥ minPay` when `minPay` is given
and `pay_rate_min ≤ maxPay` when `maxPay` is given, each condition
independent of the other's presence; in particular a job with pay range
`[10, 50]` is included under `minPay = 40`. -/
theorem pay_filter_overlap (p : QueryParams) (now : Int) (corpus : List Job)
    (j : Job) (hbase : baseQuery p now j = true) (hj : j ∈ corpus) :
    (j ∈ nonGeoMatchSet p now corpus ↔
      (∀ a, qnum p.minPay = some a → j.pay_rate_max.mongoGe a = true) ∧
      (∀ b, qnum p.maxPay = some b → j.pay_rate_min.mongoLe b = true)) ∧
    sampleJob ∈ nonGeoMatchSet { minPay := some "40" } 0 [sampleJob] := by
  constructor
  · rw [mem_nonGeoMatchSet_iff]
    tauto
  · decide

/-- Witness for `pay_filter_overlap` at `minPay = 40`, `maxPay = 60` on
the sample job with pay range `[10, 50]`. -/
theorem pay_filter_overlap_witness :
    ((sampleJob ∈ nonGeoMatchSet { minPay := some "40", maxPay := some "60" } 0 [sampleJob] ↔
      (∀ a, qnum (some "40") = some a → sampleJob.pay_rate_max.mongoGe a = true) ∧
      (∀ b, qnum (some "60") = some b → sampleJob.pay_rate_min.mongoLe b = true)) ∧
     sampleJob ∈ nonGeoMatchSet { minPay := some "40" } 0 [sampleJob]) :=
  pay_filter_overlap { minPay := some "40", maxPay := some "60" } 0 [sampleJob]
    sampleJob (by decide) (by decide)

/-- **C2** (counterexample): the non-proximity path and the
unbounded-radius proximity path do not return the same set on every
corpus: a job whose `employer_id` matches no user document is returned by
the plain path but dropped by the aggregation's `$lookup`/`$unwind`. -/
theorem geo_parity_counterexample :
    sampleJob ∈ nonGeoMatchSet {} 0 [sampleJob] ∧
    sampleJob ∉ geoMatchSet {} 0 (fun _ => 0) none [] [sampleJob] :=
  ⟨by decide, by decide⟩

/-- **C2** (amended): provided every corpus job's employer exists in the
users collection, the unbounded-radius proximity path has exactly the
plain path's membership — the two paths apply identical predicate
semantics for every filter other than proximity, differing only in
ordering. -/
theorem geo_parity_amended (p : QueryParams) (now : Int) (dist : Job → Nat)
    (users : List String) (corpus : List Job)
    (husers : ∀ j ∈ corpus, j.employer_id ∈ users) (j : Job) :
    j ∈ geoMatchSet p now dist none users corpus ↔ j ∈ nonGeoMatchSet p now corpus := by
  rw [geoMatchSet_unbounded_eq p now dist users corpus husers]

/-- Witness for `geo_parity_amended` on a one-job corpus whose employer
is present. -/
theorem geo_parity_amended_witness :
    sampleJob ∈ geoMatchSet {} 0 (fun _ => 0) none ["emp1"] [sampleJob] ↔
      sampleJob ∈ nonGeoMatchSet {} 0 [sampleJob] :=
  geo_parity_amended {} 0 (fun _ => 0) ["emp1"] [sampleJob] (by decide) sampleJob

/-- **C3**: for every valid creation request, a geocoder failure
(thrown provider error or zero matches) still produces a created job —
response 201 — carrying the sentinel coordinates `(0, 0)`; the failure is
never surfaced as a hard failure. -/
theorem createJob_degradation (geo : String → GeoOutcome) (e : String)
    (file : Option String) (now : Int) (r : CreateReq)
    (hvalid : missingRequired r = false)
    (hfail : geo (r.city.getD "") = .err ∨ geo (r.city.getD "") = .ok []) :
    ∃ j, createJob geo e file now r = .created j ∧
      (createJob geo e file now r).httpStatus = 201 ∧
      j.location.lon = 0 ∧ j.location.lat = 0 := by
  unfold createJob
  rw [hvalid]
  simp only [Bool.false_eq_true, if_false]
  refine ⟨_, rfl, rfl, ?_, ?_⟩ <;>
    rcases hfail with h | h <;> rw [h] <;> rfl

/-- Witness for `createJob_degradation`: a fully valid request against
an always-failing geocoder. -/
theorem createJob_degradation_witness :
    ∃ j, createJob failingGeocoder "emp1" none 0 sampleCreateReq = .created j ∧
      (createJob failingGeocoder "emp1" none 0 sampleCreateReq).httpStatus = 201 ∧
      j.location.lon = 0 ∧ j.location.lat = 0 :=
  createJob_degradation failingGeocoder "emp1" none 0 sampleCreateReq
    (by decide) (Or.inl rfl)

/-- **C4** (counterexample): an update patch carrying the empty string in
`pay_rate_min` does not leave the stored value unchanged — the merge
`pay_rate_min !== undefined ? pay_rate_min : job.pay_rate_min` applies
every defined value, the empty string included. -/
theorem update_merge_counterexample :
    (updateJob failingGeocoder none { pay_rate_min := some (.str "") } sampleJob).pay_rate_min ≠
        sampleJob.pay_rate_min ∧
    (updateJob failingGeocoder none { pay_rate_min := some (.str "") } sampleJob).pay_rate_min =
        .str "" :=
  ⟨by decide, by decide⟩

/-- **C4** (amended): `updateJob` merges partially — `undefined` or empty
string leaves every `||`-merged field (title, description, job type,
city, pay type, deadline, skills, status) unchanged — but the two
pay-rate fields are replaced by any *defined* patch value, the empty
string included; only `undefined` leaves them unchanged. -/
theorem update_merge_amended (geo : String → GeoOutcome) (file : Option String)
    (p : UpdatePatch) (job : Job) :
    ((p.title = none ∨ p.title = some "") →
      (updateJob geo file p job).title = job.title) ∧
    ((p.description = none ∨ p.description = some "") →
      (updateJob geo file p job).description = job.description) ∧
    ((p.job_type = none ∨ p.job_type = some "") →
      (updateJob geo file p job).job_type = job.job_type) ∧
    ((p.city = none ∨ p.city = some "") →
      (updateJob geo file p job).city = job.city ∧
      (updateJob geo file p job).location = job.location) ∧
    ((p.pay_type = none ∨ p.pay_type = some "") →
      (updateJob geo file p job).pay_type = job.pay_type) ∧
    ((p.application_deadline = none ∨ p.application_deadline = some "") →
      (updateJob geo file p job).application_deadline = job.application_deadline) ∧
    ((p.required_skills = none ∨ p.required_skills = some "") →
      (updateJob geo file p job).required_skills = job.required_skills) ∧
    ((p.status = none ∨ p.status = some "") →
      (updateJob geo file p job).status = job.status) ∧
    (p.pay_rate_min = none →
      (updateJob geo file p job).pay_rate_min = job.pay_rate_min) ∧
    (p.pay_rate_max = none →
      (updateJob geo file p job).pay_rate_max = job.pay_rate_max) ∧
    (∀ v, p.pay_rate_min = some v → (updateJob geo file p job).pay_rate_min = v) ∧
    (∀ v, p.pay_rate_max = some v → (updateJob geo file p job).pay_rate_max = v) := by
  refine ⟨?_, ?_, ?_, ?_, ?_, ?_, ?_, ?_, ?_, ?_, ?_, ?_⟩
  · rintro (h | h) <;> simp [updateJob, mergeOrStr, h]
  · rintro (h | h) <;> simp [updateJob, mergeOrStr, h]
  · rintro (h | h) <;> simp [updateJob, mergeOrStr, h]
  · rintro (h | h) <;>
      simp [updateJob, mergeOrStr, resolveUpdateLocation, h]
  · rintro (h | h) <;> simp [updateJob, mergeOrStr, h]
  · rintro (h | h) <;> simp [updateJob, mergeOrOpt, h]
  · rintro (h | h) <;> simp [updateJob, h]
  · rintro (h | h) <;> simp [updateJob, mergeOrStr, h]
  · intro h; simp [updateJob, mergeDefined, h]
  · intro h; simp [updateJob, mergeDefined, h]
  · intro v h; simp [updateJob, mergeDefined, h]
  · intro v h; simp [updateJob, mergeDefined, h]

/-- Witness for `update_merge_amended`: patch leaving the title
undefined and setting `pay_rate_min` to the empty string. -/
theorem update_merge_amended_witness :
    (updateJob failingGeocoder none { pay_rate_min := some (JVal.str "") } sampleJob).title =
        sampleJob.title ∧
    (updateJob failingGeocoder none { pay_rate_min := some (JVal.str "") } sampleJob).pay_rate_min =
        JVal.str "" := by
  obtain ⟨h1, -, -, -, -, -, -, -, -, -, h11, -⟩ :=
    update_merge_amended failingGeocoder none { pay_rate_min := some (.str "") } sampleJob
  exact ⟨h1 (Or.inl rfl), h11 (JVal.str "") rfl⟩

/-- **C5**: a second apply with the same `(jobId, applicantId)` leaves
exactly one persisted Application and is answered with the 400 conflict
rejection; under any complete interleaving of two concurrent applies the
store-level unique index on `(job_id, applicant_id)` still leaves exactly
one persisted record, one request succeeding and the other failing. -/
theorem duplicate_application_guarantee (jobId applicantId : String) (j : Job)
    (hactive : j.status = "Active") (sched : List Bool)
    (hA : (raceRun (jobId, applicantId) sched raceInit).a.isDone = true)
    (hB : (raceRun (jobId, applicantId) sched raceInit).b.isDone = true) :
    (applyForJob "laborer" true (some j) [] jobId applicantId =
        (.submitted, [(jobId, applicantId)])) ∧
    (applyForJob "laborer" true (some j) [(jobId, applicantId)] jobId applicantId =
        (.alreadyApplied, [(jobId, applicantId)])) ∧
    ApplyResult.alreadyApplied.httpStatus = 400 ∧
    (raceRun (jobId, applicantId) sched raceInit).store = [(jobId, applicantId)] ∧
    (((raceRun (jobId, applicantId) sched raceInit).a = .doneOk ∧
      (raceRun (jobId, applicantId) sched raceInit).b = .doneErr) ∨
     ((raceRun (jobId, applicantId) sched raceInit).a = .doneErr ∧
      (raceRun (jobId, applicantId) sched raceInit).b = .doneOk)) := by
  have hrace := race_final (jobId, applicantId) sched hA hB
  refine ⟨?_, ?_, rfl, hrace.1, hrace.2⟩
  · simp [applyForJob, hactive, insertUnique]
  · simp [applyForJob, hactive]

/-- Witness for `duplicate_application_guarantee` on a schedule where
request A checks and inserts before request B moves. -/
theorem duplicate_application_guarantee_witness :
    (raceRun ("j1", "a1") [true, true, false, false] raceInit).store = [("j1", "a1")] ∧
    applyForJob "laborer" true (some sampleJob) [("j1", "a1")] "j1" "a1" =
      (.alreadyApplied, [("j1", "a1")]) := by
  have h := duplicate_application_guarantee "j1" "a1" sampleJob rfl
    [true, true, false, false] (by decide) (by decide)
  exact ⟨h.2.2.2.1, h.2.1⟩

/-- **C6** (counterexample): the geospatial path's `totalCount` is not
the number of jobs matching the full predicate before `skip`/`limit`, and
differs from the plain path's total on the same filters: the
`$lookup`/`$unwind` stage removes jobs with dangling employer references
before the `$count`. -/
theorem pagination_total_counterexample :
    (getAllJobsGeo {} 0 (fun _ => 0) (some 1000) [] [sampleJob]).2 = 0 ∧
    ([sampleJob].filter (fun j => matchesQuery {} 0 j &&
        withinDist (fun _ => 0) (some 1000) j)).length = 1 ∧
    (getAllJobsNonGeo {} 0 [sampleJob]).2 = 1 :=
  ⟨by decide, by decide, by decide⟩

/-- **C6** (amended): on each path the returned total is the size of that
path's match set before any `skip`/`limit` and does not depend on the
requested page or page size; the two paths' totals agree (at unbounded
radius) whenever every corpus job's employer exists in the users
collection. -/
theorem pagination_total_amended (p : QueryParams) (now : Int) (dist : Job → Nat)
    (maxDist : Option Nat) (users : List String) (corpus : List Job)
    (pg lim : Option String)
    (husers : ∀ j ∈ corpus, j.employer_id ∈ users) :
    ((getAllJobsNonGeo { p with page := pg, limit := lim } now corpus).2 =
        (nonGeoMatchSet p now corpus).length) ∧
    ((getAllJobsGeo { p with page := pg, limit := lim } now dist maxDist users corpus).2 =
        (geoMatchSet p now dist maxDist users corpus).length) ∧
    ((getAllJobsGeo { p with page := pg, limit := lim } now dist none users corpus).2 =
        (getAllJobsNonGeo { p with page := pg, limit := lim } now corpus).2) := by
  refine ⟨rfl, rfl, ?_⟩
  show (geoMatchSet _ now dist none users corpus).length =
    (nonGeoMatchSet _ now corpus).length
  rw [geoMatchSet_unbounded_eq _ now dist users corpus husers]

/-- Witness for `pagination_total_amended` with two different page sizes
on a one-job corpus whose employer is present. -/
theorem pagination_total_amended_witness :
    ((getAllJobsNonGeo { page := some "3", limit := some "5" } 0 [sampleJob]).2 =
        (nonGeoMatchSet {} 0 [sampleJob]).length) ∧
    ((getAllJobsGeo { page := some "3", limit := some "5" } 0 (fun _ => 0)
        (some 1000) ["emp1"] [sampleJob]).2 =
        (geoMatchSet {} 0 (fun _ => 0) (some 1000) ["emp1"] [sampleJob]).length) ∧
    ((getAllJobsGeo { page := some "3", limit := some "5" } 0 (fun _ => 0)
        none ["emp1"] [sampleJob]).2 =
        (getAllJobsNonGeo { page := some "3", limit := some "5" } 0 [sampleJob]).2) :=
  pagination_total_amended {} 0 (fun _ => 0) (some 1000) ["emp1"] [sampleJob]
    (some "3") (some "5") (by decide)

/-- **C7**: an update whose city is absent or equal to the stored city
never invokes the geocoding adapter and leaves the stored location
(coordinates and address text) unchanged. -/
theorem update_noop_city (geo : String → GeoOutcome) (file : Option String)
    (p : UpdatePatch) (job : Job)
    (h : p.city = none ∨ p.city = some job.city) :
    updateInvokesGeocoder p.city job = false ∧
    (updateJob geo file p job).location = job.location := by
  rcases h with h | h <;>
    simp [updateInvokesGeocoder, updateJob, resolveUpdateLocation, h]

/-- Witness for `update_noop_city`: an update resending the stored city
against an always-failing geocoder. -/
theorem update_noop_city_witness :
    updateInvokesGeocoder (some sampleJob.city) sampleJob = false ∧
    (updateJob failingGeocoder none { city := some sampleJob.city } sampleJob).location =
        sampleJob.location :=
  update_noop_city failingGeocoder none { city := some sampleJob.city } sampleJob
    (Or.inr rfl)

/-- **C8** (counterexample): a negative `page` or `limit` does *not* fall
back to the defaults — `parseInt(x) || d` only replaces `NaN` and `0`, so
`page=-2` yields effective page `-2` and `limit=-5` yields effective page
size `-5`. -/
theorem pagination_defaults_counterexample :
    effectivePage (some "-2") = -2 ∧ effectivePage (some "-2") ≠ 1 ∧
    effectiveLimit (some "-5") = -5 ∧ effectiveLimit (some "-5") ≠ 10 := by
  refine ⟨by decide, by decide, by decide, by decide⟩

/-- **C8** (amended): the effective page defaults to 1 and the effective
page size to 10 when the parameter is absent, non-numeric, or parses to
`0`; any other parsed value — negative values included — is used as-is. -/
theorem pagination_defaults_amended (s : String) (n : Int) :
    effectivePage none = 1 ∧ effectiveLimit none = 10 ∧
    (parseJsNumber s = none →
      effectivePage (some s) = 1 ∧ effectiveLimit (some s) = 10) ∧
    (parseJsNumber s = some 0 →
      effectivePage (some s) = 1 ∧ effectiveLimit (some s) = 10) ∧
    (parseJsNumber s = some n → n ≠ 0 →
      effectivePage (some s) = n ∧ effectiveLimit (some s) = n) := by
  refine ⟨rfl, rfl, ?_, ?_, ?_⟩
  · intro h
    exact ⟨by simp [effectivePage, h], by simp [effectiveLimit, h]⟩
  · intro h
    exact ⟨by simp [effectivePage, h], by simp [effectiveLimit, h]⟩
  · intro h hn
    exact ⟨by simp [effectivePage, h, hn], by simp [effectiveLimit, h, hn]⟩

/-- Witness for `pagination_defaults_amended` on a non-numeric input. -/
theorem pagination_defaults_amended_witness :
    effectivePage (some "abc") = 1 ∧ effectiveLimit (some "abc") = 10 :=
  (pagination_defaults_amended "abc" 0).2.2.1 (by decide)

/-- **C9** (counterexample): the `jobType` filter is not a
case-insensitive *equality* against the listed types: the filter value
`Full` includes a `Full-time` job although `full-time ≠ full`, because
each listed type is compiled to an unanchored case-insensitive regular
expression. -/
theorem jobType_filter_counterexample :
    sampleJob ∈ nonGeoMatchSet { jobType := some "Full" } 0 [sampleJob] ∧
    (∀ t ∈ splitTrim "Full", lowerStr sampleJob.job_type ≠ lowerStr t) :=
  ⟨by decide, by decide⟩

/-- **C9** (amended): under a `jobType` filter a job is included if and
only if its `job_type` *contains* one of the listed (trimmed) types as a
case-insensitive substring. -/
theorem jobType_filter_amended (s : String) (hs : s ≠ "") (now : Int)
    (corpus : List Job) (j : Job) :
    j ∈ nonGeoMatchSet { jobType := some s } now corpus ↔
      j ∈ corpus ∧ ∃ t ∈ splitTrim s, ciContains j.job_type t = true := by
  rw [mem_nonGeoMatchSet_iff]
  have hs' : (s != "") = true := by simpa using hs
  unfold baseQuery qnum
  simp [hs', List.any_eq_true]

/-- Witness for `jobType_filter_amended` at filter value `Full`. -/
theorem jobType_filter_amended_witness :
    sampleJob ∈ nonGeoMatchSet { jobType := some "Full" } 0 [sampleJob] ↔
      sampleJob ∈ [sampleJob] ∧
      ∃ t ∈ splitTrim "Full", ciContains sampleJob.job_type t = true :=
  jobType_filter_amended "Full" (by decide) 0 [sampleJob] sampleJob

/-- **C10** (counterexample): a zero pay rate *can* be created through
the public create endpoint: the string `"0"` is truthy, so it passes the
required-fields guard, `parseFloat("0")` yields the number `0`, and the
request is answered 201 with a persisted job whose `pay_rate_min` is `0`
(which the schema's `min: 0` validator accepts) — refuting the claim's
clause that a zero pay rate can never be created. -/
theorem zero_pay_creatable_counterexample :
    ∃ j, createJob failingGeocoder "emp1" none 0
        { sampleCreateReq with pay_rate_min := some (.str "0") } = .created j ∧
      j.pay_rate_min = JVal.num 0 ∧
      (createJob failingGeocoder "emp1" none 0
        { sampleCreateReq with pay_rate_min := some (.str "0") }).httpStatus = 201 ∧
      jobSchemaPayRateMinOk 0 = true := by
  exact ⟨_, rfl, rfl, rfl, rfl⟩

/-- **C10** (amended): a creation request whose `pay_rate_min` or
`pay_rate_max` is the *number* `0` (JavaScript-falsy) is rejected 400 by
the missing-required-fields guard and persists no job, although the Job
schema itself accepts pay rates of exactly `0` (`min: 0`); the *string*
`"0"`, however, is truthy, passes the guard and parses to `0`, so a
zero-pay job is creatable through the endpoint by supplying the pay rate
as a string. -/
theorem zero_pay_rejected (geo : String → GeoOutcome) (e : String)
    (file : Option String) (now : Int) (r : CreateReq)
    (h : r.pay_rate_min = some (.num 0) ∨ r.pay_rate_max = some (.num 0)) :
    (createJob geo e file now r).httpStatus = 400 ∧
    (∀ j, createJob geo e file now r ≠ .created j) ∧
    jobSchemaPayRateMinOk 0 = true ∧ jobSchemaPayRateMaxOk 0 = true ∧
    (∃ j, createJob failingGeocoder "emp1" none 0
        { sampleCreateReq with pay_rate_min := some (.str "0") } = .created j ∧
       j.pay_rate_min = JVal.num 0) := by
  have hmiss : missingRequired r = true := by
    rcases h with h | h <;> simp [missingRequired, h, otruthy, JVal.truthy]
  refine ⟨?_, ?_, rfl, rfl, ⟨_, rfl, rfl⟩⟩ <;>
    simp [createJob, hmiss, CreateResult.httpStatus]

/-- Witness for `zero_pay_rejected`: the sample request with its minimum
pay rate set to the number `0`. -/
theorem zero_pay_rejected_witness :
    (createJob failingGeocoder "emp1" none 0
        { sampleCreateReq with pay_rate_min := some (.num 0) }).httpStatus = 400 ∧
    (∀ j, createJob failingGeocoder "emp1" none 0
        { sampleCreateReq with pay_rate_min := some (.num 0) } ≠ .created j) ∧
    jobSchemaPayRateMinOk 0 = true ∧ jobSchemaPayRateMaxOk 0 = true ∧
    (∃ j, createJob failingGeocoder "emp1" none 0
        { sampleCreateReq with pay_rate_min := some (.str "0") } = .created j ∧
       j.pay_rate_min = JVal.num 0) :=
  zero_pay_rejected failingGeocoder "emp1" none 0
    { sampleCreateReq with pay_rate_min := some (.num 0) } (Or.inl rfl)

end GeoJob
